import Mathlib

/-!
Shallow embedding of `src/src/flet_gui_builder/validated_textfield.py`.

The file defines the `ValidationEvent` enum, the `ValidatedTextField` wrapper
class and its subclass `DateTimeTextField`.  The claims all concern the
date-specific variant (with the base-class methods `__init__` and
`_handle_validation` specialized to the subclass by dynamic dispatch, which is
how Python resolves them on a `DateTimeTextField` instance), so the state
type below models a `DateTimeTextField` object together with the
`ft.TextField` widget it owns.  Mutating Python methods become functions from
state to state (paired with their return value where the method returns one).

`datetime.strptime(value, "%Y-%m-%d")` is library code; it is modelled by
`strptime_Ymd` below, following CPython `_strptime`: the format compiles to
the regex  dddd-(1[0-2]|0[1-9]|[1-9])-(3[01]|[12]d|0[1-9]|[1-9])  which must
consume the whole string, after which `datetime(year, month, day)` checks
that the year is at least 1 and the day fits the (proleptic Gregorian) month.
A raised `ValueError` is modelled as the result `none`.  We model the digit
class over ASCII digits (the CPython regex also admits other Unicode decimal
digits; none of the claims depends on that corner).
-/

namespace FletGuiBuilder

/-- A parsed `datetime` value as far as this code observes it: `strptime` with
format `%Y-%m-%d` fills year, month and day and zeroes the time fields. -/
structure PyDatetime where
  year : Nat
  month : Nat
  day : Nat
deriving DecidableEq

/-- Numeric value of a list of ASCII digit characters, most significant first. -/
def digitsToNat (cs : List Char) : Nat :=
  cs.foldl (fun n c => n * 10 + (c.toNat - 48)) 0

/-- Proleptic Gregorian leap-year test, as used by `datetime`. -/
def isLeapYear (y : Nat) : Bool :=
  y % 4 == 0 && (y % 100 != 0 || y % 400 == 0)

/-- Number of days in a month, as enforced by the `datetime` constructor. -/
def daysInMonth (y m : Nat) : Nat :=
  if m = 2 then (if isLeapYear y then 29 else 28)
  else if m = 4 ∨ m = 6 ∨ m = 9 ∨ m = 11 then 30
  else 31

/-- The full-string language of the `%m` group `1[0-2]|0[1-9]|[1-9]`:
one or two ASCII digits whose value lies in 1..12. -/
def monthGroupOk (cs : List Char) : Bool :=
  cs.all Char.isDigit && decide (1 ≤ cs.length) && decide (cs.length ≤ 2)
    && decide (1 ≤ digitsToNat cs) && decide (digitsToNat cs ≤ 12)

/-- The full-string language of the `%d` group `3[0-1]|[1-2]\d|0[1-9]|[1-9]| [1-9]`:
one or two ASCII digits whose value lies in 1..31, or a space followed by a
single digit in 1..9. -/
def dayGroupOk (cs : List Char) : Bool :=
  (cs.all Char.isDigit && decide (1 ≤ cs.length) && decide (cs.length ≤ 2)
    && decide (1 ≤ digitsToNat cs) && decide (digitsToNat cs ≤ 31))
  || (match cs with
      | [' ', c] => c.isDigit && c ≠ '0'
      | _ => false)

/-- Numeric value of a matched `%d` group: `int` ignores the leading space of
the space-digit alternative. -/
def dayGroupVal (cs : List Char) : Nat :=
  digitsToNat (cs.dropWhile (· = ' '))

/-- Split a character list at its first dash, or fail when no dash occurs. -/
def splitFirstDash : List Char → Option (List Char × List Char)
  | [] => none
  | c :: cs =>
    if c = '-' then some ([], cs)
    else match splitFirstDash cs with
      | some (a, b) => some (c :: a, b)
      | none => none

/-- Model of `datetime.strptime(s, "%Y-%m-%d")`: four digits of year, a dash,
a month group, a dash, a day group consuming the rest of the string, then the
`datetime` range checks of the constructor.  `none` models a raised `ValueError`
(pattern mismatch, unconverted data, year 0, or day out of range for the
month). -/
def strptime_Ymd (s : String) : Option PyDatetime :=
  match s.toList with
  | y1 :: y2 :: y3 :: y4 :: '-' :: rest =>
    if y1.isDigit && y2.isDigit && y3.isDigit && y4.isDigit then
      match splitFirstDash rest with
      | some (mcs, dcs) =>
        if monthGroupOk mcs && dayGroupOk dcs then
          let y := digitsToNat [y1, y2, y3, y4]
          let m := digitsToNat mcs
          let d := dayGroupVal dcs
          if 1 ≤ y ∧ d ≤ daysInMonth y m then some ⟨y, m, d⟩ else none
        else none
      | none => none
    else none
  | _ => none

/-- The source enum `ValidationEvent` (members ON_BLUR, ON_CHANGE). -/
inductive ValidationEvent where
  | ON_BLUR
  | ON_CHANGE
deriving DecidableEq

/-- A Python value passed as the `validation_event` argument: either a
`ValidationEvent` member (as the base-class signature expects) or a plain
string (as `DateTimeTextField.__init__` declares, with default "on_blur"). -/
inductive PyEventArg where
  | enumMember (e : ValidationEvent)
  | pyStr (s : String)
deriving DecidableEq

/-- Python equality `arg == member` for the two shapes above: plain `Enum`
members compare by identity, so a string never equals a member. -/
def pyEventEq (arg : PyEventArg) (e : ValidationEvent) : Bool :=
  match arg with
  | .enumMember e2 => e2 = e
  | .pyStr _ => false

/-- The observable state of the owned `ft.TextField` widget: the constructor
arguments the source passes, with the two handler slots recorded as whether
`_handle_validation` was bound to them (a `None` handler is `false`). -/
structure TextFieldState where
  label : String
  hint_text : String
  value : String
  error_text : Option String
  on_blur_bound : Bool
  on_change_bound : Bool
deriving DecidableEq

/-- The state of a `DateTimeTextField` object: the attributes set by
`ValidatedTextField.__init__` and `DateTimeTextField.__init__`.  `_on_update`
is modelled by whether a callback was supplied (`_has_on_update`); handler
runs report whether they invoked it. -/
structure DateTimeTextField where
  label : String
  hint_text : String
  _initial_value_str : String
  _validation_event : PyEventArg
  _is_valid : Bool
  _has_on_update : Bool
  _format : String
  _datetime_value : Option PyDatetime
  text_field : TextFieldState
deriving DecidableEq

namespace DateTimeTextField

/-- Method `DateTimeTextField._validate_value` (source lines 106-120): empty values
are invalid with no parsed value; otherwise `strptime` is tried and a raised
`ValueError` (modelled by `none`) is caught, clearing the parsed value and
the flag.  Returns the updated object state and the boolean result of the method. -/
def _validate_value (self : DateTimeTextField) (value : String) :
    DateTimeTextField × Bool :=
  if value = "" then
    ({ self with _is_valid := false, _datetime_value := none }, false)
  else
    match strptime_Ymd value with
    | some dt => ({ self with _datetime_value := some dt, _is_valid := true }, true)
    | none => ({ self with _datetime_value := none, _is_valid := false }, false)

/-- Method `DateTimeTextField._get_error_message` (source lines 123-131): a fixed
Japanese template parameterized by the hint text, shown only when the flag is
false and the value is non-empty. -/
def _get_error_message (self : DateTimeTextField) (value : String) :
    Option String :=
  if self._is_valid = false ∧ value ≠ "" then
    some ("正しい形式 (" ++ self.hint_text ++ ") で入力してください")
  else none

/-- Method `ValidatedTextField._handle_validation` (source lines 51-60) as dispatched
on a `DateTimeTextField`: reads `e.control.value` (the current value of the owned
widget), revalidates, recomputes the error text, and only when it differs from
the displayed one assigns it and calls `_on_update` when present.  Returns
the updated state and whether `_on_update` was invoked. -/
def _handle_validation (self : DateTimeTextField) : DateTimeTextField × Bool :=
  let value := self.text_field.value
  let s1 := (self._validate_value value).1
  let new_error_text :=
    if s1._is_valid = false then s1._get_error_message value else none
  if s1.text_field.error_text ≠ new_error_text then
    ({ s1 with
        text_field := { s1.text_field with error_text := new_error_text } },
      s1._has_on_update)
  else (s1, false)

/-- Constructor `DateTimeTextField.__init__` (source lines 99-103) including the
`ValidatedTextField.__init__` it calls (source lines 16-44), with
`_validate_value` and `_get_error_message` resolved to the subclass
overrides: sets the attributes, builds the `ft.TextField` with each handler
slot bound exactly when `validation_event == ValidationEvent.ON_BLUR`
(respectively `.ON_CHANGE`) holds under Python equality, validates the
initial value and sets the initial error text. -/
def __init__ (label hint_text : String) (initial_value : Option String)
    (validation_event : PyEventArg) (has_on_update : Bool) :
    DateTimeTextField :=
  let initial_str := initial_value.getD ""
  let s0 : DateTimeTextField := {
    label := label
    hint_text := hint_text
    _initial_value_str := initial_str
    _validation_event := validation_event
    _is_valid := false
    _has_on_update := has_on_update
    _format := "%Y-%m-%d"
    _datetime_value := none
    text_field := {
      label := label
      hint_text := hint_text
      value := initial_str
      error_text := none
      on_blur_bound := pyEventEq validation_event ValidationEvent.ON_BLUR
      on_change_bound := pyEventEq validation_event ValidationEvent.ON_CHANGE } }
  let s1 := (s0._validate_value initial_str).1
  { s1 with
    text_field := { s1.text_field with
      error_text :=
        if s1._is_valid = false then s1._get_error_message initial_str
        else none } }

/-- Property `value` (source): the current string of the widget. -/
def value (self : DateTimeTextField) : String :=
  self.text_field.value

/-- Property `is_valid` (source): the current validity flag. -/
def is_valid (self : DateTimeTextField) : Bool :=
  self._is_valid

/-- Property `datetime_value` (source lines 133-137): the parsed value, gated
by the validity flag. -/
def datetime_value (self : DateTimeTextField) : Option PyDatetime :=
  if self.is_valid then self._datetime_value else none

end DateTimeTextField

/-- Derived characterization (not a source method): the validity of a raw
string under `DateTimeTextField._validate_value`, as a pure function of the
string. -/
def dtValid (v : String) : Bool :=
  if v = "" then false else (strptime_Ymd v).isSome

/-- Derived characterization (not a source method): the parsed value that
`DateTimeTextField._validate_value` stores for a raw string. -/
def dtParsed (v : String) : Option PyDatetime :=
  if v = "" then none else strptime_Ymd v

/-- Derived characterization (not a source method): the error text that the
handler and the constructor compute for a raw string, as a pure function of
the hint text and the string. -/
def dtErrorFor (hint v : String) : Option String :=
  if dtValid v = false ∧ v ≠ "" then
    some ("正しい形式 (" ++ hint ++ ") で入力してください")
  else none

/-- Consistency of the displayed error text with the last-computed validity
flag for the current raw value, expressed with the very
`_get_error_message` rule. -/
def errorConsistent (s : DateTimeTextField) : Prop :=
  s.text_field.error_text =
    if s._is_valid = false then s._get_error_message s.text_field.value
    else none

/-- A concrete constructed field (the default demo arguments: no initial
value, the string selector, no callback), used to instantiate hypotheses at
concrete inputs. -/
def sampleField : DateTimeTextField :=
  DateTimeTextField.__init__ "日時" "YYYY-MM-DD" none
    (PyEventArg.pyStr "on_blur") false

namespace DateTimeTextField

theorem validate_value_eq (s : DateTimeTextField) (v : String) :
    s._validate_value v =
      ({ s with _is_valid := dtValid v, _datetime_value := dtParsed v },
        dtValid v) := by
  unfold _validate_value dtValid dtParsed
  by_cases hv : v = ""
  · simp [hv]
  · simp only [hv, if_neg, if_false]
    cases h : strptime_Ymd v <;> simp [h]

theorem err_gate (b : Bool) (p : Prop) [Decidable p] (x : Option String) :
    (if b = false then (if b = false ∧ p then x else none) else none)
      = (if b = false ∧ p then x else none) := by
  cases b <;> simp

theorem get_error_message_eq (s : DateTimeTextField) (v : String)
    (h : s._is_valid = dtValid v) :
    (if s._is_valid = false then s._get_error_message v else none)
      = dtErrorFor s.hint_text v := by
  unfold _get_error_message dtErrorFor
  rw [h]
  exact err_gate (dtValid v) (v ≠ "") _

theorem handle_validation_eq (s : DateTimeTextField) :
    s._handle_validation =
      (if s.text_field.error_text
            ≠ dtErrorFor s.hint_text s.text_field.value then
         ({ s with
             _is_valid := dtValid s.text_field.value
             _datetime_value := dtParsed s.text_field.value
             text_field := { s.text_field with
               error_text := dtErrorFor s.hint_text s.text_field.value } },
           s._has_on_update)
       else
         ({ s with
             _is_valid := dtValid s.text_field.value
             _datetime_value := dtParsed s.text_field.value }, false)) := by
  unfold _handle_validation
  simp only [validate_value_eq, _get_error_message, dtErrorFor, err_gate]

theorem init_eq (label hint_text : String) (initial_value : Option String)
    (validation_event : PyEventArg) (has_on_update : Bool) :
    __init__ label hint_text initial_value validation_event has_on_update =
      { label := label
        hint_text := hint_text
        _initial_value_str := initial_value.getD ""
        _validation_event := validation_event
        _is_valid := dtValid (initial_value.getD "")
        _has_on_update := has_on_update
        _format := "%Y-%m-%d"
        _datetime_value := dtParsed (initial_value.getD "")
        text_field := {
          label := label
          hint_text := hint_text
          value := initial_value.getD ""
          error_text := dtErrorFor hint_text (initial_value.getD "")
          on_blur_bound := pyEventEq validation_event ValidationEvent.ON_BLUR
          on_change_bound :=
            pyEventEq validation_event ValidationEvent.ON_CHANGE } } := by
  unfold __init__
  simp only [validate_value_eq, _get_error_message, dtErrorFor, err_gate]

end DateTimeTextField

/-- C1: the claim says construction with a validation-trigger selector binds
the validation handler to the selected widget event (blur for focus-lost,
change for value-changed).  The date-specific variant declares its selector
as a plain string with default "on_blur" and forwards it to the base
constructor, where Python equality with the enum members is false for any
string, so at this failing input (the date variant constructed with its own
default selector "on_blur") neither widget event gets the handler bound. -/
theorem date_variant_default_selector_binds_no_handler :
    (DateTimeTextField.__init__ "日時" "YYYY-MM-DD" none
        (PyEventArg.pyStr "on_blur") false).text_field.on_blur_bound = false
    ∧ (DateTimeTextField.__init__ "日時" "YYYY-MM-DD" none
        (PyEventArg.pyStr "on_blur") false).text_field.on_change_bound
          = false := by
  decide

/-- C2: for every string accepted by the calendar-date format `%Y-%m-%d`,
running `_validate_value` on it makes `is_valid` true and makes the
`datetime_value` accessor return exactly the directly parsed value. -/
theorem validate_value_accepts_parsed_dates (s : DateTimeTextField)
    (v : String) (d : PyDatetime) (h : strptime_Ymd v = some d) :
    ((s._validate_value v).1).is_valid = true ∧
    ((s._validate_value v).1).datetime_value = some d := by
  have h0 : strptime_Ymd "" = none := rfl
  have hv : v ≠ "" := by
    intro he
    rw [he, h0] at h
    exact Option.noConfusion h
  simp [DateTimeTextField._validate_value, hv, h,
    DateTimeTextField.is_valid, DateTimeTextField.datetime_value]

/-- Witness for C2 at the concrete date string "2024-12-31". -/
theorem validate_value_accepts_parsed_dates_witness :
    strptime_Ymd "2024-12-31" = some ⟨2024, 12, 31⟩ ∧
    (((sampleField._validate_value "2024-12-31").1).is_valid = true ∧
      ((sampleField._validate_value "2024-12-31").1).datetime_value
        = some ⟨2024, 12, 31⟩) :=
  ⟨by decide,
    validate_value_accepts_parsed_dates sampleField "2024-12-31"
      ⟨2024, 12, 31⟩ (by decide)⟩

/-- C3: validating the empty string always yields an invalid flag while the
computed error message is none (invalid but silent). -/
theorem empty_value_invalid_and_silent (s : DateTimeTextField) :
    ((s._validate_value "").1)._is_valid = false ∧
    ((s._validate_value "").1)._get_error_message "" = none := by
  simp [DateTimeTextField._validate_value, DateTimeTextField._get_error_message]

/-- C4: validating a non-empty string the date format rejects yields an
invalid flag, and the computed error message is exactly the fixed localized
template parameterized by the hint text. -/
theorem nonempty_unparsable_shows_template_message (s : DateTimeTextField)
    (v : String) (h1 : v ≠ "") (h2 : strptime_Ymd v = none) :
    ((s._validate_value v).1).is_valid = false ∧
    ((s._validate_value v).1)._get_error_message v
      = some ("正しい形式 (" ++ s.hint_text ++ ") で入力してください") := by
  simp [DateTimeTextField._validate_value, h1, h2,
    DateTimeTextField.is_valid, DateTimeTextField._get_error_message]

/-- Witness for C4 at the concrete malformed string "2024-13-01". -/
theorem nonempty_unparsable_shows_template_message_witness :
    ("2024-13-01" ≠ "" ∧ strptime_Ymd "2024-13-01" = none) ∧
    (((sampleField._validate_value "2024-13-01").1).is_valid = false ∧
      ((sampleField._validate_value "2024-13-01").1)._get_error_message
          "2024-13-01"
        = some ("正しい形式 (" ++ sampleField.hint_text
            ++ ") で入力してください")) :=
  ⟨⟨by decide, by decide⟩,
    nonempty_unparsable_shows_template_message sampleField "2024-13-01"
      (by decide) (by decide)⟩

/-- C5: after construction with any arguments and after every run of the
validation handler on any state, the displayed error text agrees with the
rule applied to the last-computed validity flag and the current raw value:
it is exactly the message `_get_error_message` yields when the flag is
false, and none when the flag is true. -/
theorem error_display_consistent_after_init_and_handler :
    (∀ (label hint_text : String) (initial_value : Option String)
        (validation_event : PyEventArg) (has_on_update : Bool),
      errorConsistent
        (DateTimeTextField.__init__ label hint_text initial_value
          validation_event has_on_update)) ∧
    (∀ s : DateTimeTextField, errorConsistent (s._handle_validation).1) := by
  constructor
  · intro label hint_text initial_value validation_event has_on_update
    simp [errorConsistent, DateTimeTextField.init_eq,
      DateTimeTextField._get_error_message, dtErrorFor,
      DateTimeTextField.err_gate]
  · intro s
    unfold errorConsistent
    by_cases h :
        s.text_field.error_text = dtErrorFor s.hint_text s.text_field.value
    · rw [DateTimeTextField.handle_validation_eq, if_neg (fun hn => hn h)]
      simp [h, DateTimeTextField._get_error_message, dtErrorFor,
        DateTimeTextField.err_gate]
    · rw [DateTimeTextField.handle_validation_eq, if_pos h]
      simp [DateTimeTextField._get_error_message, dtErrorFor,
        DateTimeTextField.err_gate]

/-- C6: a handler run whose newly computed error message equals the
currently displayed error text does not invoke the repaint callback and
leaves the displayed error text unchanged. -/
theorem unchanged_error_skips_update (s : DateTimeTextField)
    (h : (if ((s._validate_value s.text_field.value).1)._is_valid = false then
            ((s._validate_value s.text_field.value).1)._get_error_message
              s.text_field.value
          else none) = s.text_field.error_text) :
    (s._handle_validation).2 = false ∧
    (s._handle_validation).1.text_field.error_text
      = s.text_field.error_text := by
  have h2 : s.text_field.error_text
      = dtErrorFor s.hint_text s.text_field.value := by
    rw [← h]
    simp [DateTimeTextField.validate_value_eq,
      DateTimeTextField._get_error_message, dtErrorFor,
      DateTimeTextField.err_gate]
  rw [DateTimeTextField.handle_validation_eq]
  simp [h2]

/-- Witness for C6 at a concrete state whose displayed error text already
equals the recomputed one. -/
theorem unchanged_error_skips_update_witness :
    ((if ((sampleField._validate_value
            sampleField.text_field.value).1)._is_valid = false then
        ((sampleField._validate_value
            sampleField.text_field.value).1)._get_error_message
          sampleField.text_field.value
      else none) = sampleField.text_field.error_text) ∧
    ((sampleField._handle_validation).2 = false ∧
      (sampleField._handle_validation).1.text_field.error_text
        = sampleField.text_field.error_text) :=
  ⟨by decide, unchanged_error_skips_update sampleField (by decide)⟩

/-- C7: construction immediately validates the initial value: the stored
validity flag equals the result `_validate_value` gives for that value, and
the widget error text is the corresponding message, none when valid. -/
theorem init_validates_initial_value (label hint_text : String)
    (initial_value : Option String) (validation_event : PyEventArg)
    (has_on_update : Bool) :
    (DateTimeTextField.__init__ label hint_text initial_value
        validation_event has_on_update)._is_valid
      = ((DateTimeTextField.__init__ label hint_text initial_value
            validation_event has_on_update)._validate_value
          (initial_value.getD "")).2 ∧
    (DateTimeTextField.__init__ label hint_text initial_value
        validation_event has_on_update).text_field.error_text
      = (if (DateTimeTextField.__init__ label hint_text initial_value
              validation_event has_on_update)._is_valid = false then
           (DateTimeTextField.__init__ label hint_text initial_value
               validation_event has_on_update)._get_error_message
             (initial_value.getD "")
         else none) := by
  simp [DateTimeTextField.init_eq, DateTimeTextField.validate_value_eq,
    DateTimeTextField._get_error_message, dtErrorFor,
    DateTimeTextField.err_gate]

/-- C8: the parsed-value accessor is gated by the validity flag: whenever
`is_valid` is false, `datetime_value` is none. -/
theorem datetime_value_none_when_invalid (s : DateTimeTextField)
    (h : s.is_valid = false) : s.datetime_value = none := by
  simp [DateTimeTextField.datetime_value, h]

/-- Witness for C8 at a concrete invalid state. -/
theorem datetime_value_none_when_invalid_witness :
    sampleField.is_valid = false ∧ sampleField.datetime_value = none :=
  ⟨by decide, datetime_value_none_when_invalid sampleField (by decide)⟩

/-- C9: a date-parse failure (a `ValueError` raised by `strptime`, modelled
as result none) is caught inside `_validate_value`, which returns normally
with the flag and parsed value cleared, and for a non-empty value the
failure is converted into the displayed error string; the handler never
raises, the embedding of `_validate_value` being a total function. -/
theorem parse_failure_caught_and_converted (s : DateTimeTextField)
    (v : String) (h1 : strptime_Ymd v = none) (h2 : v ≠ "") :
    s._validate_value v
        = ({ s with _is_valid := false, _datetime_value := none }, false) ∧
    ((s._validate_value v).1)._get_error_message v
        = some ("正しい形式 (" ++ s.hint_text ++ ") で入力してください") := by
  simp [DateTimeTextField._validate_value, h1, h2,
    DateTimeTextField._get_error_message]

/-- Witness for C9 at the concrete invalid calendar date "2023-02-29". -/
theorem parse_failure_caught_and_converted_witness :
    (strptime_Ymd "2023-02-29" = none ∧ "2023-02-29" ≠ "") ∧
    (sampleField._validate_value "2023-02-29"
        = ({ sampleField with _is_valid := false, _datetime_value := none },
            false) ∧
      ((sampleField._validate_value "2023-02-29").1)._get_error_message
          "2023-02-29"
        = some ("正しい形式 (" ++ sampleField.hint_text
            ++ ") で入力してください")) :=
  ⟨⟨by decide, by decide⟩,
    parse_failure_caught_and_converted sampleField "2023-02-29"
      (by decide) (by decide)⟩

/-- C10: running the handler a second time right after a first run changes
nothing and does not invoke the callback, and `_validate_value` is
deterministic in its string argument with its boolean result always equal to
the flag it stores. -/
theorem handler_idempotent_and_validate_deterministic
    (s : DateTimeTextField) :
    (s._handle_validation).1._handle_validation
        = ((s._handle_validation).1, false)
    ∧ (∀ (s2 : DateTimeTextField) (v : String),
        (s._validate_value v).2 = (s2._validate_value v).2)
    ∧ (∀ v : String,
        ((s._validate_value v).1)._is_valid = (s._validate_value v).2) := by
  refine ⟨?_, ?_, ?_⟩
  · by_cases h :
        s.text_field.error_text = dtErrorFor s.hint_text s.text_field.value
    · rw [DateTimeTextField.handle_validation_eq s, if_neg (fun hn => hn h)]
      rw [DateTimeTextField.handle_validation_eq]
      simp [h]
    · rw [DateTimeTextField.handle_validation_eq s, if_pos h]
      rw [DateTimeTextField.handle_validation_eq]
      simp
  · intro s2 v
    simp [DateTimeTextField.validate_value_eq]
  · intro v
    simp [DateTimeTextField.validate_value_eq]

end FletGuiBuilder
